import Mathlib

/-!
Shallow embedding of `database.py` (Tron-2-Bot): the `TradingDatabase`
SQLite wrapper, its write path (`log_trade`, `log_market_scan`,
`log_bot_status`), its read path (`get_trades`, `get_market_scans`,
`get_bot_status`, `get_latest_scan`, `get_latest_status`), the CSV import
(`import_from_csv`) and the module-level singleton accessor (`get_db`).

Modelling conventions:
* SQLite REAL columns are modelled by `Rat` (the claims under study concern
  data flow, not floating-point rounding).
* Timestamps are the `"YYYY-MM-DD HH:MM:SS"` TEXT strings the code stores;
  SQL `ORDER BY timestamp` and the pandas re-sorts are modelled by a stable
  insertion sort on the string order (lexicographic order coincides with
  chronological order for this fixed-width format).
* The external world (clock, connection health, query success) is passed in
  explicitly: each operation takes the current UTC time string `now` where
  the code calls `datetime.utcnow()`, a `connectOk` flag telling whether a
  `sqlite3.connect` performed by this call would succeed, and a
  `writeOk` or `readOk` flag telling whether the SQL executed by this call
  would succeed.  A raised Python exception is an `Except.error`.
* The `indicators` TEXT column holds `json.dumps` of a flat mapping; since
  `json.dumps` is injective on such mappings and `json.loads` inverts it,
  the column is modelled as `Option Indicators` (`none` is SQL NULL).  The
  `active_pairs` TEXT column is modelled concretely as `Option String`
  together with character-level models of Python's `','.join` and
  `split(',')`, because delimiter handling is itself under study.
-/

namespace TronBot

/-- A value of a market-scan indicator mapping (numeric or string), as the
bot stores them through `json.dumps`. -/
inductive IndVal where
  | num (q : Rat)
  | str (s : String)
deriving DecidableEq, Repr

/-- A flat indicator mapping, the argument of `json.dumps` in
`log_market_scan` and the result of `json.loads` on the read path. -/
abbrev Indicators := List (String × IndVal)

/-- One row of the `trades` table (schema from `create_tables`). -/
structure TradeRow where
  id : Nat
  timestamp : String
  pair : String
  action : String
  price : Rat
  quantity : Rat
  net_profit : Option Rat
  profit_pct : Option Rat
  order_id : Option String
  strategy : Option String
  created_at : String
deriving DecidableEq, Repr

/-- One row of the `market_scans` table (schema from `create_tables`). -/
structure ScanRow where
  id : Nat
  timestamp : String
  pair : String
  signal : String
  price : Rat
  strategy : Option String
  interval : Option String
  indicators : Option Indicators
  created_at : String
deriving DecidableEq, Repr

/-- One row of the `bot_status` table (schema from `create_tables`).
`active_pairs` is the raw TEXT column produced by `','.join`. -/
structure StatusRow where
  id : Nat
  timestamp : String
  status : String
  account_value : Option Rat
  active_pairs : Option String
  message : Option String
  created_at : String
deriving DecidableEq, Repr

/-- The state of one `TradingDatabase`: the connection flag (`self.conn`
is live iff `conn = true`; `close` sets it to `None`) and the three
tables with their AUTOINCREMENT counters. -/
structure DBState where
  conn : Bool
  trades : List TradeRow
  scans : List ScanRow
  statuses : List StatusRow
  nextTradeId : Nat
  nextScanId : Nat
  nextStatusId : Nat
deriving DecidableEq, Repr

/-- The Python exceptions the module can raise, by provenance. -/
inductive DbErr where
  | connectionError
  | writeError
deriving DecidableEq, Repr

/-- A freshly constructed store: `__init__` connects and runs
`create_tables` on an empty database file. -/
def initState : DBState :=
  { conn := true, trades := [], scans := [], statuses := [],
    nextTradeId := 1, nextScanId := 1, nextStatusId := 1 }

/-- The `if not self.conn: self.connect()` preamble of every operation:
keeps a live connection, reconnects a dropped one (`connectOk` says
whether `sqlite3.connect` succeeds), `none` when the reconnect raises. -/
def ensureConn (s : DBState) (connectOk : Bool) : Option DBState :=
  if s.conn then some s
  else if connectOk then some { s with conn := true } else none

/-- `close`: releases the connection if one is held (`if self.conn:`),
afterwards `self.conn is None`. -/
def DBState.close (s : DBState) : DBState :=
  if s.conn then { s with conn := false } else s

/-- Python truthiness of an optional string argument (`if pair:`):
`None` and the empty string are both falsy. -/
def pyStrOpt (x : Option String) : Option String :=
  match x with
  | some s => if s = "" then none else some s
  | none => none

/-- Python truthiness of an optional integer argument (`if limit:`):
`None` and `0` are both falsy. -/
def pyNatOpt (x : Option Nat) : Option Nat :=
  match x with
  | some 0 => none
  | x => x

/-- `TradingDatabase.log_trade`: reconnect when dropped, INSERT one row
into `trades` with `created_at = timestamp = now`, commit and return
`cursor.lastrowid`; on failure roll back and re-raise. -/
def DBState.log_trade (s : DBState) (connectOk writeOk : Bool)
    (now pair action : String) (price quantity : Rat)
    (net_profit profit_pct : Option Rat) (order_id strategy : Option String) :
    DBState × Except DbErr Nat :=
  match ensureConn s connectOk with
  | none => (s, .error .connectionError)
  | some s1 =>
    if writeOk then
      let row : TradeRow :=
        { id := s1.nextTradeId, timestamp := now, pair := pair, action := action,
          price := price, quantity := quantity, net_profit := net_profit,
          profit_pct := profit_pct, order_id := order_id, strategy := strategy,
          created_at := now }
      ({ s1 with trades := s1.trades ++ [row], nextTradeId := s1.nextTradeId + 1 },
       .ok s1.nextTradeId)
    else (s1, .error .writeError)

/-- The `if indicators:` serialization step of `log_market_scan`:
a `None` or empty mapping stores SQL NULL, otherwise the `json.dumps`
blob (modelled by the mapping itself). -/
def serializeIndicators (indicators : Option Indicators) : Option Indicators :=
  match indicators with
  | some d => if d = [] then none else some d
  | none => none

/-- `TradingDatabase.log_market_scan`: reconnect when dropped, serialize
the indicator mapping, INSERT one row into `market_scans`, commit and
return the row id; on failure roll back and re-raise. -/
def DBState.log_market_scan (s : DBState) (connectOk writeOk : Bool)
    (now pair signal : String) (price : Rat)
    (strategy interval : Option String) (indicators : Option Indicators) :
    DBState × Except DbErr Nat :=
  match ensureConn s connectOk with
  | none => (s, .error .connectionError)
  | some s1 =>
    if writeOk then
      let row : ScanRow :=
        { id := s1.nextScanId, timestamp := now, pair := pair, signal := signal,
          price := price, strategy := strategy, interval := interval,
          indicators := serializeIndicators indicators, created_at := now }
      ({ s1 with scans := s1.scans ++ [row], nextScanId := s1.nextScanId + 1 },
       .ok s1.nextScanId)
    else (s1, .error .writeError)

/-- Character-level model of Python `sep.join(parts)`. -/
def joinChars (sep : Char) : List (List Char) → List Char
  | [] => []
  | [p] => p
  | p :: l => p ++ sep :: joinChars sep l

/-- Character-level model of Python `s.split(sep)` for a one-character
separator: always returns at least one (possibly empty) field. -/
def splitChars (sep : Char) : List Char → List (List Char)
  | [] => [[]]
  | c :: cs =>
    if c = sep then [] :: splitChars sep cs
    else
      match splitChars sep cs with
      | [] => [[c]]
      | g :: gs => (c :: g) :: gs

/-- Model of `','.join(active_pairs)` in `log_bot_status`. -/
def joinPairs (l : List String) : String :=
  String.mk (joinChars ',' (l.map String.toList))

/-- Model of `pairs_str.split(',')` on the read path. -/
def splitPairs (s : String) : List String :=
  (splitChars ',' s.toList).map String.mk

/-- The `if active_pairs:` serialization step of `log_bot_status`:
a `None` or empty list stores SQL NULL, a non-empty list stores the
comma-joined string. -/
def serializePairs (active_pairs : Option (List String)) : Option String :=
  match active_pairs with
  | some l => if l = [] then none else some (joinPairs l)
  | none => none

/-- `TradingDatabase.log_bot_status`: reconnect when dropped, serialize the
active-pair list, INSERT one row into `bot_status`, commit and return the
row id; on failure roll back and re-raise. -/
def DBState.log_bot_status (s : DBState) (connectOk writeOk : Bool)
    (now status : String) (account_value : Option Rat)
    (active_pairs : Option (List String)) (message : Option String) :
    DBState × Except DbErr Nat :=
  match ensureConn s connectOk with
  | none => (s, .error .connectionError)
  | some s1 =>
    if writeOk then
      let row : StatusRow :=
        { id := s1.nextStatusId, timestamp := now, status := status,
          account_value := account_value,
          active_pairs := serializePairs active_pairs,
          message := message, created_at := now }
      ({ s1 with statuses := s1.statuses ++ [row], nextStatusId := s1.nextStatusId + 1 },
       .ok s1.nextStatusId)
    else (s1, .error .writeError)

/-- Descending order on a string key: the relation sorted by
`ORDER BY timestamp DESC` and `sort_values(ascending=False)`. -/
def byDesc (f : α → String) (a b : α) : Prop := f b ≤ f a

/-- Ascending order on a string key: the relation sorted by
`sort_values('timestamp')`. -/
def byAsc (f : α → String) (a b : α) : Prop := f a ≤ f b

instance (f : α → String) : DecidableRel (byDesc f) :=
  fun a b => inferInstanceAs (Decidable (f b ≤ f a))

instance (f : α → String) : DecidableRel (byAsc f) :=
  fun a b => inferInstanceAs (Decidable (f a ≤ f b))

instance (f : α → String) : IsTotal α (byDesc f) :=
  ⟨fun a b => le_total (f b) (f a)⟩

instance (f : α → String) : IsTrans α (byDesc f) :=
  ⟨fun _ _ _ h1 h2 => le_trans h2 h1⟩

instance (f : α → String) : IsTotal α (byAsc f) :=
  ⟨fun a b => le_total (f a) (f b)⟩

instance (f : α → String) : IsTrans α (byAsc f) :=
  ⟨fun _ _ _ h1 h2 => le_trans h1 h2⟩

/-- Deterministic model of sorting rows newest-first by a string key. -/
def sortDesc (f : α → String) (l : List α) : List α :=
  List.insertionSort (byDesc f) l

/-- Deterministic model of sorting rows oldest-first by a string key. -/
def sortAsc (f : α → String) (l : List α) : List α :=
  List.insertionSort (byAsc f) l

/-- The SQL `LIMIT` clause: applied only when the Python `limit` argument
is truthy. -/
def applyLimit (limit : Option Nat) (l : List α) : List α :=
  match pyNatOpt limit with
  | some n => l.take n
  | none => l

/-- The optional equality filter a read builds with `if pair: ... AND pair = ?`. -/
def strFilter (v : Option String) (field : String) : Bool :=
  match pyStrOpt v with
  | some x => field == x
  | none => true

/-- The optional lower date bound: `AND timestamp >= "start_date 00:00:00"`. -/
def dateLowerFilter (v : Option String) (ts : String) : Bool :=
  match pyStrOpt v with
  | some d => decide ((d ++ " 00:00:00") ≤ ts)
  | none => true

/-- The optional upper date bound: `AND timestamp <= "end_date 23:59:59"`. -/
def dateUpperFilter (v : Option String) (ts : String) : Bool :=
  match pyStrOpt v with
  | some d => decide (ts ≤ (d ++ " 23:59:59"))
  | none => true

/-- The WHERE clause `get_trades` builds from its arguments. -/
def tradeMatches (pair action start_date end_date : Option String)
    (r : TradeRow) : Bool :=
  strFilter pair r.pair && strFilter action r.action &&
    dateLowerFilter start_date r.timestamp && dateUpperFilter end_date r.timestamp

/-- The WHERE clause `get_market_scans` builds from its arguments. -/
def scanMatches (pair signal start_date end_date : Option String)
    (r : ScanRow) : Bool :=
  strFilter pair r.pair && strFilter signal r.signal &&
    dateLowerFilter start_date r.timestamp && dateUpperFilter end_date r.timestamp

/-- The WHERE clause `get_bot_status` builds from its arguments. -/
def statusMatches (status start_date end_date : Option String)
    (r : StatusRow) : Bool :=
  strFilter status r.status &&
    dateLowerFilter start_date r.timestamp && dateUpperFilter end_date r.timestamp

/-- `df['net_profit'].fillna(0)`: the per-row contribution to the
cumulative sum. -/
def netOrZero (r : TradeRow) : Rat := r.net_profit.getD 0

/-- A row of the DataFrame `get_trades` returns: the stored columns plus
the derived `cumulative_net_profit` column. -/
structure TradeOut where
  row : TradeRow
  cumulative_net_profit : Rat
deriving DecidableEq, Repr

/-- The `cumsum` pass: walks the chronologically sorted rows and attaches
the running total of `netOrZero`, starting from `acc`. -/
def addCumulative (acc : Rat) : List TradeRow → List TradeOut
  | [] => []
  | r :: l =>
    let acc2 := acc + netOrZero r
    ⟨r, acc2⟩ :: addCumulative acc2 l

/-- The spec's derived-field formula for claim C2: the running prefix
sums of a list of per-row net-profit contributions, in list order. -/
def prefixSums (acc : Rat) : List Rat → List Rat
  | [] => []
  | x :: l => (acc + x) :: prefixSums (acc + x) l

/-- `TradingDatabase.get_trades`: reconnect when dropped, SELECT with the
optional filters ordered newest-first and truncated by `limit`, then the
two-pass cumulative-profit computation (`sort_values('timestamp')`,
`fillna(0).cumsum()`, re-sort descending).  Any failure is caught and an
empty DataFrame returned. -/
def DBState.get_trades (s : DBState) (connectOk readOk : Bool)
    (pair action start_date end_date : Option String) (limit : Option Nat) :
    DBState × List TradeOut :=
  match ensureConn s connectOk with
  | none => (s, [])
  | some s1 =>
    if readOk then
      let filtered := s1.trades.filter (tradeMatches pair action start_date end_date)
      let limited := applyLimit limit (sortDesc (fun r => r.timestamp) filtered)
      let ascRows := sortAsc (fun r => r.timestamp) limited
      let withCum := addCumulative 0 ascRows
      (s1, sortDesc (fun o : TradeOut => o.row.timestamp) withCum)
    else (s1, [])

/-- A row of the DataFrame `get_market_scans` returns: the stored columns
plus the parsed `indicators_dict` column (`{}` for NULL, unreadable or
empty blobs). -/
structure ScanOut where
  row : ScanRow
  indicators_dict : Indicators
deriving DecidableEq, Repr

/-- The `parse_indicators` helper of `get_market_scans`: NULL deserializes
to the empty mapping, a stored blob to the mapping it encodes. -/
def parseIndicators (stored : Option Indicators) : Indicators :=
  match stored with
  | none => []
  | some d => d

/-- `TradingDatabase.get_market_scans`: reconnect when dropped, SELECT with
the optional filters ordered newest-first and truncated by `limit`, then
attach the parsed `indicators_dict` column.  Any failure is caught and an
empty DataFrame returned. -/
def DBState.get_market_scans (s : DBState) (connectOk readOk : Bool)
    (pair signal start_date end_date : Option String) (limit : Option Nat) :
    DBState × List ScanOut :=
  match ensureConn s connectOk with
  | none => (s, [])
  | some s1 =>
    if readOk then
      let filtered := s1.scans.filter (scanMatches pair signal start_date end_date)
      let limited := applyLimit limit (sortDesc (fun r => r.timestamp) filtered)
      (s1, limited.map (fun r => ⟨r, parseIndicators r.indicators⟩))
    else (s1, [])

/-- The `parse_active_pairs` helper of `get_bot_status`: NULL and the
empty string deserialize to the empty list, anything else is split on
commas. -/
def parseActivePairs (stored : Option String) : List String :=
  match stored with
  | none => []
  | some str => if str = "" then [] else splitPairs str

/-- A row of the DataFrame `get_bot_status` returns: the stored columns
plus the parsed `active_pairs_list` column. -/
structure StatusOut where
  row : StatusRow
  active_pairs_list : List String
deriving DecidableEq, Repr

/-- `TradingDatabase.get_bot_status`: reconnect when dropped, SELECT with
the optional filters ordered newest-first and truncated by `limit`, then
attach the parsed `active_pairs_list` column.  Any failure is caught and
an empty DataFrame returned. -/
def DBState.get_bot_status (s : DBState) (connectOk readOk : Bool)
    (status start_date end_date : Option String) (limit : Option Nat) :
    DBState × List StatusOut :=
  match ensureConn s connectOk with
  | none => (s, [])
  | some s1 =>
    if readOk then
      let filtered := s1.statuses.filter (statusMatches status start_date end_date)
      let limited := applyLimit limit (sortDesc (fun r => r.timestamp) filtered)
      (s1, limited.map (fun r => ⟨r, parseActivePairs r.active_pairs⟩))
    else (s1, [])

/-- The scan dictionary `get_latest_scan` returns.  The code replaces the
`indicators` entry by its parsed mapping only when the stored value is
truthy (`if scan_dict.get('indicators')`), so a NULL column stays the
absent value; under the lossless `json.dumps`/`json.loads` model a stored
blob parses back to its mapping, so the row is returned with `indicators`
unchanged. -/
def latestScanDict (r : ScanRow) : ScanRow := r

/-- `TradingDatabase.get_latest_scan`: reconnect when dropped, SELECT the
newest matching row (`ORDER BY timestamp DESC LIMIT 1`), parse truthy
indicators; `None` when no row matches or on any failure. -/
def DBState.get_latest_scan (s : DBState) (connectOk readOk : Bool)
    (pair : Option String) : DBState × Option ScanRow :=
  match ensureConn s connectOk with
  | none => (s, none)
  | some s1 =>
    if readOk then
      let rows :=
        match pyStrOpt pair with
        | some p => s1.scans.filter (fun r => r.pair == p)
        | none => s1.scans
      match sortDesc (fun r : ScanRow => r.timestamp) rows with
      | [] => (s1, none)
      | r :: _ => (s1, some (latestScanDict r))
    else (s1, none)

/-- The status dictionary `get_latest_status` returns: the stored columns
plus the `active_pairs_list` entry (`[]` when the stored column is
falsy, the comma-split list otherwise). -/
def latestStatusDict (r : StatusRow) : StatusOut :=
  ⟨r, match r.active_pairs with
      | none => []
      | some str => if str = "" then [] else splitPairs str⟩

/-- `TradingDatabase.get_latest_status`: reconnect when dropped, SELECT the
newest row (`ORDER BY timestamp DESC LIMIT 1`) and attach
`active_pairs_list`; `None` when the table is empty or on any failure. -/
def DBState.get_latest_status (s : DBState) (connectOk readOk : Bool) :
    DBState × Option StatusOut :=
  match ensureConn s connectOk with
  | none => (s, none)
  | some s1 =>
    if readOk then
      match sortDesc (fun r : StatusRow => r.timestamp) s1.statuses with
      | [] => (s1, none)
      | r :: _ => (s1, some (latestStatusDict r))
    else (s1, none)

/-- One cell of the tabular file `import_from_csv` reads through
`pd.read_csv`: missing/NaN, a number, or a string. -/
inductive CsvValue where
  | null
  | num (q : Rat)
  | str (s : String)
deriving DecidableEq, Repr

/-- The DataFrame `pd.read_csv` produces: a header naming the columns and
one association list of cells per data row. -/
structure CsvFile where
  columns : List String
  rows : List (List (String × CsvValue))
deriving DecidableEq, Repr

/-- The `required_columns` list `import_from_csv` validates against. -/
def required_columns : List String :=
  ["timestamp", "pair", "action", "price", "quantity"]

/-- `record.get(col)` on one parsed CSV row. -/
def lookupCell (row : List (String × CsvValue)) (c : String) : CsvValue :=
  ((row.find? (fun kv => kv.1 == c)).map (fun kv => kv.2)).getD .null

/-- A cell bound for a TEXT column, `.null` when absent. -/
def cellStr : CsvValue → Option String
  | .str s => some s
  | .num _ => none
  | .null => none

/-- A cell bound for a REAL column, `.null` when absent or non-numeric
(a non-numeric cell in a NOT NULL REAL column makes the INSERT of the
batch fail in the model, as an ill-typed row does in the code). -/
def cellNum : CsvValue → Option Rat
  | .num q => some q
  | .str _ => none
  | .null => none

/-- Conversion of one CSV record to a `trades` row, mirroring the INSERT
`import_from_csv` builds: the five required columns must carry values of
the column's type (`timestamp` is passed through `str(...)`), the four
optional columns are included only when present in the file's header.
`none` models the INSERT raising (NOT NULL violation or ill-typed cell),
which aborts and rolls back the whole batch. -/
def convertCsvRow (fileCols : List String) (nextId : Nat) (created : String)
    (row : List (String × CsvValue)) : Option TradeRow := do
  let ts ← cellStr (lookupCell row "timestamp")
  let pair ← cellStr (lookupCell row "pair")
  let action ← cellStr (lookupCell row "action")
  let price ← cellNum (lookupCell row "price")
  let quantity ← cellNum (lookupCell row "quantity")
  some
    { id := nextId, timestamp := ts, pair := pair, action := action,
      price := price, quantity := quantity,
      net_profit :=
        if fileCols.contains "net_profit" then cellNum (lookupCell row "net_profit")
        else none,
      profit_pct :=
        if fileCols.contains "profit_pct" then cellNum (lookupCell row "profit_pct")
        else none,
      order_id :=
        if fileCols.contains "order_id" then cellStr (lookupCell row "order_id")
        else none,
      strategy :=
        if fileCols.contains "strategy" then cellStr (lookupCell row "strategy")
        else none,
      created_at := created }

/-- The INSERT loop of `import_from_csv`: executes the per-record INSERTs
in order; the first failing record aborts the batch (`none`). -/
def insertCsvRows (s : DBState) (created : String) (fileCols : List String) :
    List (List (String × CsvValue)) → Option DBState
  | [] => some s
  | row :: rest =>
    match convertCsvRow fileCols s.nextTradeId created row with
    | some tr =>
      insertCsvRows
        { s with trades := s.trades ++ [tr], nextTradeId := s.nextTradeId + 1 }
        created fileCols rest
    | none => none

/-- `TradingDatabase.import_from_csv`: reconnect when dropped, validate
that every required column is present (otherwise return 0 with nothing
written and no exception), insert every record and commit, returning the
record count; any failure rolls the whole batch back and returns 0. -/
def DBState.import_from_csv (s : DBState) (connectOk writeOk : Bool)
    (now : String) (csv : CsvFile) : DBState × Nat :=
  match ensureConn s connectOk with
  | none => (s, 0)
  | some s1 =>
    if required_columns.all (fun c => csv.columns.contains c) then
      if writeOk then
        match insertCsvRows s1 now csv.columns csv.rows with
        | some s2 => (s2, csv.rows.length)
        | none => (s1, 0)
      else (s1, 0)
    else (s1, 0)

/-- `os.path.join(os.getcwd(), "trading_bot.db")`: the default database
location resolved inside `__init__` when no path is supplied. -/
def resolveDbFile (db_file : Option String) (cwd : String) : String :=
  match db_file with
  | some f => f
  | none => cwd ++ "/trading_bot.db"

/-- A `TradingDatabase` object: the resolved file path it was constructed
with and its state. -/
structure TradingDatabase where
  db_file : String
  state : DBState
deriving DecidableEq, Repr

/-- `TradingDatabase.__init__` on a fresh database file: resolve the path,
connect and create the tables. -/
def TradingDatabase.init (db_file : Option String) (cwd : String) :
    TradingDatabase :=
  { db_file := resolveDbFile db_file cwd, state := initState }

/-- The module-level `get_db` accessor over the `_db_instance` global:
construct the singleton on first call (using the caller's `db_file`),
return the existing instance ever after.  The pair returned is (result,
new value of `_db_instance`). -/
def get_db (inst : Option TradingDatabase) (db_file : Option String)
    (cwd : String) : TradingDatabase × Option TradingDatabase :=
  match inst with
  | some h => (h, some h)
  | none =>
    let h := TradingDatabase.init db_file cwd
    (h, some h)

/-! ### Helper lemmas -/

theorem conn_update_self (s : DBState) (h : s.conn = true) :
    { s with conn := true } = s := by
  cases s; simp_all

theorem ensureConn_connectOk (s : DBState) :
    ensureConn s true = some { s with conn := true } := by
  cases h : s.conn <;> simp [ensureConn, h, conn_update_self]

theorem ensureConn_fields (s : DBState) (cOk : Bool) (s1 : DBState)
    (h : ensureConn s cOk = some s1) :
    s1.conn = true ∧ s1.trades = s.trades ∧ s1.scans = s.scans ∧
      s1.statuses = s.statuses ∧ s1.nextTradeId = s.nextTradeId ∧
      s1.nextScanId = s.nextScanId ∧ s1.nextStatusId = s.nextStatusId := by
  unfold ensureConn at h
  split_ifs at h with h1 h2
  · injection h with h'
    subst h'
    simp_all
  · injection h with h'
    subst h'
    simp

theorem close_conn (s : DBState) : s.close.conn = false := by
  unfold DBState.close; split_ifs with h <;> simp_all

theorem close_update (s : DBState) :
    { s.close with conn := true } = { s with conn := true } := by
  unfold DBState.close; split_ifs with h
  · rfl
  · rfl

/-! ### Claim theorems -/

/-- Claim C6: two sequential calls to the store registry `get_db` return
the identical handle created by the first call; the second call's
location argument (and working directory) are ignored, and the handle's
location is the one resolved from the first call's argument. -/
theorem c6_registry_returns_first_handle (loc1 loc2 : Option String)
    (cwd1 cwd2 : String) :
    (get_db (get_db none loc1 cwd1).2 loc2 cwd2).1 = (get_db none loc1 cwd1).1 ∧
    (get_db (get_db none loc1 cwd1).2 loc2 cwd2).1.db_file = resolveDbFile loc1 cwd1 :=
  ⟨rfl, rfl⟩

/-- Claim C7: every Query Engine operation absorbs a failed read into an
empty result (`[]` for collection queries, `none` for latest-of-type
queries): first when the SQL query itself fails (`readOk = false`, any
connection state), then when the connection is dropped and cannot be
re-established (`s.close` with `connectOk = false`). -/
theorem c7_reads_degrade_to_empty (s : DBState) (connectOk : Bool)
    (pair action signal status start_date end_date : Option String)
    (limit : Option Nat) :
    ((s.get_trades connectOk false pair action start_date end_date limit).2 = [] ∧
      (s.get_market_scans connectOk false pair signal start_date end_date limit).2 = [] ∧
      (s.get_bot_status connectOk false status start_date end_date limit).2 = [] ∧
      (s.get_latest_scan connectOk false pair).2 = none ∧
      (s.get_latest_status connectOk false).2 = none) ∧
    ((s.close.get_trades false true pair action start_date end_date limit).2 = [] ∧
      (s.close.get_market_scans false true pair signal start_date end_date limit).2 = [] ∧
      (s.close.get_bot_status false true status start_date end_date limit).2 = [] ∧
      (s.close.get_latest_scan false true pair).2 = none ∧
      (s.close.get_latest_status false true).2 = none) := by
  have hc : s.close.conn = false := close_conn s
  constructor
  · refine ⟨?_, ?_, ?_, ?_, ?_⟩ <;>
      first
        | (unfold DBState.get_trades; cases ensureConn s connectOk <;> simp)
        | (unfold DBState.get_market_scans; cases ensureConn s connectOk <;> simp)
        | (unfold DBState.get_bot_status; cases ensureConn s connectOk <;> simp)
        | (unfold DBState.get_latest_scan; cases ensureConn s connectOk <;> simp)
        | (unfold DBState.get_latest_status; cases ensureConn s connectOk <;> simp)
  · refine ⟨?_, ?_, ?_, ?_, ?_⟩ <;>
      simp [DBState.get_trades, DBState.get_market_scans, DBState.get_bot_status,
        DBState.get_latest_scan, DBState.get_latest_status, ensureConn, hc]

/-- Claim C8: each Recorder call either commits the row fully (the
entity's table grows by exactly the written row) and returns the
store-assigned identifier, or fails with an error and leaves the
entity's table unchanged — there is no third outcome. -/
theorem c8_writes_all_or_nothing (s : DBState) (cOk wOk : Bool)
    (now pair action signal status : String) (price quantity : Rat)
    (np pp av : Option Rat) (oid strat iv msg : Option String)
    (ind : Option Indicators) (aps : Option (List String)) :
    (((s.log_trade cOk wOk now pair action price quantity np pp oid strat).2 =
          .ok s.nextTradeId ∧
        (s.log_trade cOk wOk now pair action price quantity np pp oid strat).1.trades =
          s.trades ++
            [{ id := s.nextTradeId, timestamp := now, pair := pair, action := action,
               price := price, quantity := quantity, net_profit := np,
               profit_pct := pp, order_id := oid, strategy := strat,
               created_at := now }]) ∨
      ((∃ e, (s.log_trade cOk wOk now pair action price quantity np pp oid strat).2 =
          .error e) ∧
        (s.log_trade cOk wOk now pair action price quantity np pp oid strat).1.trades =
          s.trades)) ∧
    (((s.log_market_scan cOk wOk now pair signal price strat iv ind).2 =
          .ok s.nextScanId ∧
        (s.log_market_scan cOk wOk now pair signal price strat iv ind).1.scans =
          s.scans ++
            [{ id := s.nextScanId, timestamp := now, pair := pair, signal := signal,
               price := price, strategy := strat, interval := iv,
               indicators := serializeIndicators ind, created_at := now }]) ∨
      ((∃ e, (s.log_market_scan cOk wOk now pair signal price strat iv ind).2 =
          .error e) ∧
        (s.log_market_scan cOk wOk now pair signal price strat iv ind).1.scans =
          s.scans)) ∧
    (((s.log_bot_status cOk wOk now status av aps msg).2 = .ok s.nextStatusId ∧
        (s.log_bot_status cOk wOk now status av aps msg).1.statuses =
          s.statuses ++
            [{ id := s.nextStatusId, timestamp := now, status := status,
               account_value := av, active_pairs := serializePairs aps,
               message := msg, created_at := now }]) ∨
      ((∃ e, (s.log_bot_status cOk wOk now status av aps msg).2 = .error e) ∧
        (s.log_bot_status cOk wOk now status av aps msg).1.statuses =
          s.statuses)) := by
  obtain ⟨c, tr, sc, st, n1, n2, n3⟩ := s
  cases c <;> cases cOk <;> cases wOk <;>
    simp [DBState.log_trade, DBState.log_market_scan, DBState.log_bot_status,
      ensureConn]

/-- Claim C3: a Recorder write issued while the connection is dropped
re-establishes the connection before attempting the write, so with a
working reconnect the call behaves exactly as on a live connection (and
in particular succeeds when the retried write succeeds); the write after
the reconnect is attempted once, and its failure — the second consecutive
failure — propagates, as does a failing reconnect itself. -/
theorem c3_dropped_conn_reconnects_then_retries_once (s : DBState)
    (h : s.conn = false) (now pair action signal status : String)
    (price quantity : Rat) (np pp av : Option Rat)
    (oid strat iv msg : Option String) (ind : Option Indicators)
    (aps : Option (List String)) :
    ((∀ wOk, s.log_trade true wOk now pair action price quantity np pp oid strat =
        ({ s with conn := true }).log_trade true wOk now pair action price quantity
          np pp oid strat) ∧
      (s.log_trade true true now pair action price quantity np pp oid strat).2 =
        .ok s.nextTradeId ∧
      (s.log_trade true false now pair action price quantity np pp oid strat).2 =
        .error .writeError ∧
      (∀ wOk, s.log_trade false wOk now pair action price quantity np pp oid strat =
        (s, .error .connectionError))) ∧
    ((∀ wOk, s.log_market_scan true wOk now pair signal price strat iv ind =
        ({ s with conn := true }).log_market_scan true wOk now pair signal price
          strat iv ind) ∧
      (s.log_market_scan true true now pair signal price strat iv ind).2 =
        .ok s.nextScanId ∧
      (s.log_market_scan true false now pair signal price strat iv ind).2 =
        .error .writeError ∧
      (∀ wOk, s.log_market_scan false wOk now pair signal price strat iv ind =
        (s, .error .connectionError))) ∧
    ((∀ wOk, s.log_bot_status true wOk now status av aps msg =
        ({ s with conn := true }).log_bot_status true wOk now status av aps msg) ∧
      (s.log_bot_status true true now status av aps msg).2 = .ok s.nextStatusId ∧
      (s.log_bot_status true false now status av aps msg).2 = .error .writeError ∧
      (∀ wOk, s.log_bot_status false wOk now status av aps msg =
        (s, .error .connectionError))) := by
  obtain ⟨c, tr, sc, st, n1, n2, n3⟩ := s
  simp only [DBState.conn] at h
  subst h
  simp [DBState.log_trade, DBState.log_market_scan, DBState.log_bot_status,
    ensureConn]

/-- Claim C10: after `close`, every Recorder and Query Engine operation
(run with a healthy environment) re-establishes the connection and
behaves exactly as on a live connection: its result equals the result on
the connected state, it leaves the connection live, and writes still
return their row identifier — `close` never permanently disables the
handle. -/
theorem c10_operations_recover_after_close (s : DBState)
    (now pair action signal status : String) (price quantity : Rat)
    (np pp av : Option Rat) (oid strat iv msg : Option String)
    (ind : Option Indicators) (aps : Option (List String))
    (fpair faction fsignal fstatus fsd fed : Option String)
    (limit : Option Nat) :
    (s.close.log_trade true true now pair action price quantity np pp oid strat =
        ({ s with conn := true }).log_trade true true now pair action price quantity
          np pp oid strat ∧
      (s.close.log_trade true true now pair action price quantity np pp oid
          strat).1.conn = true ∧
      (s.close.log_trade true true now pair action price quantity np pp oid
          strat).2 = .ok s.nextTradeId) ∧
    (s.close.log_market_scan true true now pair signal price strat iv ind =
        ({ s with conn := true }).log_market_scan true true now pair signal price
          strat iv ind ∧
      (s.close.log_market_scan true true now pair signal price strat iv
          ind).1.conn = true ∧
      (s.close.log_market_scan true true now pair signal price strat iv ind).2 =
        .ok s.nextScanId) ∧
    (s.close.log_bot_status true true now status av aps msg =
        ({ s with conn := true }).log_bot_status true true now status av aps msg ∧
      (s.close.log_bot_status true true now status av aps msg).1.conn = true ∧
      (s.close.log_bot_status true true now status av aps msg).2 =
        .ok s.nextStatusId) ∧
    (s.close.get_trades true true fpair faction fsd fed limit =
        ({ s with conn := true }).get_trades true true fpair faction fsd fed limit ∧
      (s.close.get_trades true true fpair faction fsd fed limit).1.conn = true) ∧
    (s.close.get_market_scans true true fpair fsignal fsd fed limit =
        ({ s with conn := true }).get_market_scans true true fpair fsignal fsd fed
          limit ∧
      (s.close.get_market_scans true true fpair fsignal fsd fed limit).1.conn =
        true) ∧
    (s.close.get_bot_status true true fstatus fsd fed limit =
        ({ s with conn := true }).get_bot_status true true fstatus fsd fed limit ∧
      (s.close.get_bot_status true true fstatus fsd fed limit).1.conn = true) ∧
    (s.close.get_latest_scan true true fpair =
        ({ s with conn := true }).get_latest_scan true true fpair ∧
      (s.close.get_latest_scan true true fpair).1.conn = true) ∧
    (s.close.get_latest_status true true =
        ({ s with conn := true }).get_latest_status true true ∧
      (s.close.get_latest_status true true).1.conn = true) := by
  obtain ⟨c, tr, sc, st, n1, n2, n3⟩ := s
  cases c <;>
    (simp [DBState.close, DBState.log_trade, DBState.log_market_scan,
       DBState.log_bot_status, DBState.get_trades, DBState.get_market_scans,
       DBState.get_bot_status, DBState.get_latest_scan, DBState.get_latest_status,
       ensureConn]
     refine ⟨?_, ?_⟩ <;> (split <;> rfl))

theorem tradeMatches_pair_only (p : String) (hp : p ≠ "") (r : TradeRow) :
    tradeMatches (some p) none none none r = (r.pair == p) := by
  simp [tradeMatches, strFilter, dateLowerFilter, dateUpperFilter, pyStrOpt, hp]

theorem log_trade_ok_eq (s : DBState) (now pair action : String)
    (price quantity : Rat) (np pp : Option Rat) (oid strat : Option String) :
    s.log_trade true true now pair action price quantity np pp oid strat =
      (DBState.mk true
        (s.trades ++
          [TradeRow.mk s.nextTradeId now pair action price quantity np pp oid
            strat now])
        s.scans s.statuses (s.nextTradeId + 1) s.nextScanId s.nextStatusId,
       Except.ok s.nextTradeId) := by
  obtain ⟨c, tr, sc, st, n1, n2, n3⟩ := s
  cases c <;> simp [DBState.log_trade, ensureConn]

theorem get_trades_single (s : DBState) (hconn : s.conn = true)
    (pair action sd ed : Option String) (row : TradeRow)
    (hfil : s.trades.filter (tradeMatches pair action sd ed) = [row]) :
    (s.get_trades true true pair action sd ed none).2 =
      [TradeOut.mk row (netOrZero row)] := by
  unfold DBState.get_trades
  have h1 : ensureConn s true = some s := by simp [ensureConn, hconn]
  rw [h1]
  simp [hfil, sortDesc, sortAsc, applyLimit, pyNatOpt, List.insertionSort,
    List.orderedInsert, addCumulative]

/-- Claim C5: `import_from_csv` on a file missing a required column
returns 0 and leaves the `trades` table untouched; the model returns a
plain count (no exception value), mirroring the code's `return 0` in the
validation branch. -/
theorem c5_import_missing_required_column_writes_nothing (s : DBState)
    (cOk wOk : Bool) (now : String) (csv : CsvFile) (c : String)
    (hc : c ∈ required_columns) (hmiss : c ∉ csv.columns) :
    (s.import_from_csv cOk wOk now csv).2 = 0 ∧
    (s.import_from_csv cOk wOk now csv).1.trades = s.trades := by
  have hnot : ¬ ∀ x ∈ required_columns, x ∈ csv.columns := fun hx => hmiss (hx c hc)
  unfold DBState.import_from_csv
  cases h : ensureConn s cOk with
  | none => simp
  | some s1 =>
    have htr := (ensureConn_fields s cOk s1 h).2.1
    simp [hnot, htr]

/-- Claim C5 witness: importing a file whose header lacks the `price`
column into a fresh store returns 0 and writes no trade. -/
theorem c5_import_missing_required_column_writes_nothing_witness :
    (initState.import_from_csv true true "2024-01-01 00:00:00"
        ⟨["timestamp", "pair", "action", "quantity"], []⟩).2 = 0 ∧
    (initState.import_from_csv true true "2024-01-01 00:00:00"
        ⟨["timestamp", "pair", "action", "quantity"], []⟩).1.trades =
      initState.trades :=
  c5_import_missing_required_column_writes_nothing initState true true
    "2024-01-01 00:00:00" ⟨["timestamp", "pair", "action", "quantity"], []⟩
    "price" (by decide) (by decide)

/-- Claim C1: recording a trade and then querying with a filter that
matches it (and nothing else in the store) returns exactly one row whose
pair, action, price, quantity and optional fields equal the inputs, and
the write returns the store-assigned identifier. -/
theorem c1_log_trade_get_trades_roundtrip (s : DBState)
    (now p act : String) (price qty : Rat) (np pp : Option Rat)
    (oid strat : Option String) (hp : p ≠ "")
    (hmiss : ∀ r ∈ s.trades, r.pair ≠ p) :
    ((s.log_trade true true now p act price qty np pp oid strat).1.get_trades
        true true (some p) none none none none).2 =
      [⟨{ id := s.nextTradeId, timestamp := now, pair := p, action := act,
          price := price, quantity := qty, net_profit := np, profit_pct := pp,
          order_id := oid, strategy := strat, created_at := now }, np.getD 0⟩] ∧
    (s.log_trade true true now p act price qty np pp oid strat).2 =
      .ok s.nextTradeId := by
  rw [log_trade_ok_eq]
  refine ⟨?_, rfl⟩
  refine get_trades_single _ rfl _ _ _ _ _ ?_
  rw [List.filter_congr (fun r _ => tradeMatches_pair_only p hp r),
    List.filter_append]
  have h1 : s.trades.filter (fun r : TradeRow => r.pair == p) = [] :=
    List.filter_eq_nil_iff.mpr (fun r hr => by simp [hmiss r hr])
  simp [h1]

theorem addCumulative_map_row (acc : Rat) (l : List TradeRow) :
    (addCumulative acc l).map TradeOut.row = l := by
  induction l generalizing acc with
  | nil => rfl
  | cons r t ih => simp [addCumulative, ih]

theorem addCumulative_map_cum (acc : Rat) (l : List TradeRow) :
    (addCumulative acc l).map TradeOut.cumulative_net_profit =
      prefixSums acc (l.map netOrZero) := by
  induction l generalizing acc with
  | nil => rfl
  | cons r t ih => simp [addCumulative, prefixSums, ih]

theorem get_trades_run (s : DBState) (pair action sd ed : Option String)
    (limit : Option Nat) :
    (s.get_trades true true pair action sd ed limit).2 =
      sortDesc (fun o : TradeOut => o.row.timestamp)
        (addCumulative 0 (sortAsc (fun r : TradeRow => r.timestamp)
          (applyLimit limit (sortDesc (fun r : TradeRow => r.timestamp)
            (s.trades.filter (tradeMatches pair action sd ed)))))) := by
  unfold DBState.get_trades
  rw [ensureConn_connectOk]
  rfl

/-- Claim C2: for every `get_trades` query run against a healthy store,
the result is presented newest-first; its underlying rows are exactly the
filtered trade set (truncated to the newest `limit` rows when a limit is
given, as the SQL LIMIT applies before the cumulative pass); and there is
an oldest-first arrangement of the very same result rows along which the
attached `cumulative_net_profit` values are precisely the prefix sums of
net profit with absent net profit treated as zero. -/
theorem c2_cumulative_prefix_sum_ascending_presented_descending
    (s : DBState) (pair action sd ed : Option String) (limit : Option Nat) :
    List.Sorted (byDesc (fun o : TradeOut => o.row.timestamp))
      (s.get_trades true true pair action sd ed limit).2 ∧
    ((s.get_trades true true pair action sd ed limit).2.map TradeOut.row).Perm
      (applyLimit limit (sortDesc (fun r : TradeRow => r.timestamp)
        (s.trades.filter (tradeMatches pair action sd ed)))) ∧
    ∃ asc : List TradeOut,
      asc.Perm (s.get_trades true true pair action sd ed limit).2 ∧
      List.Sorted (byAsc (fun o : TradeOut => o.row.timestamp)) asc ∧
      asc.map TradeOut.cumulative_net_profit =
        prefixSums 0 (asc.map (fun o => netOrZero o.row)) := by
  rw [get_trades_run]
  refine ⟨List.sorted_insertionSort _ _, ?_, ?_⟩
  · refine ((List.perm_insertionSort _ _).map TradeOut.row).trans ?_
    rw [addCumulative_map_row]
    exact List.perm_insertionSort _ _
  · refine ⟨addCumulative 0 (sortAsc (fun r : TradeRow => r.timestamp)
      (applyLimit limit (sortDesc (fun r : TradeRow => r.timestamp)
        (s.trades.filter (tradeMatches pair action sd ed))))),
      (List.perm_insertionSort _ _).symm, ?_, ?_⟩
    · have h0 : List.Sorted (byAsc (fun r : TradeRow => r.timestamp))
          ((addCumulative 0 (sortAsc (fun r : TradeRow => r.timestamp)
            (applyLimit limit (sortDesc (fun r : TradeRow => r.timestamp)
              (s.trades.filter (tradeMatches pair action sd ed)))))).map
            TradeOut.row) := by
        rw [addCumulative_map_row]
        exact List.sorted_insertionSort _ _
      exact (List.pairwise_map (f := TradeOut.row)).mp h0
    · rw [addCumulative_map_cum]
      congr 1
      conv_lhs =>
        rw [← addCumulative_map_row 0 (sortAsc (fun r : TradeRow => r.timestamp)
          (applyLimit limit (sortDesc (fun r : TradeRow => r.timestamp)
            (s.trades.filter (tradeMatches pair action sd ed)))))]
      rw [List.map_map]
      rfl

theorem splitChars_no_sep (sep : Char) (p : List Char) (h : sep ∉ p) :
    splitChars sep p = [p] := by
  induction p with
  | nil => rfl
  | cons c t ih =>
    have hc : ¬ c = sep := fun e => h (by simp [e])
    have ht : sep ∉ t := fun e => h (by simp [e])
    simp [splitChars, hc, ih ht]

theorem splitChars_append_sep (sep : Char) (p rest : List Char) (h : sep ∉ p) :
    splitChars sep (p ++ sep :: rest) = p :: splitChars sep rest := by
  induction p with
  | nil => simp [splitChars]
  | cons c t ih =>
    have hc : ¬ c = sep := fun e => h (by simp [e])
    have ht : sep ∉ t := fun e => h (by simp [e])
    simp [splitChars, hc, ih ht]

theorem joinChars_split (sep : Char) :
    ∀ l : List (List Char), l ≠ [] → (∀ p ∈ l, sep ∉ p) →
      splitChars sep (joinChars sep l) = l
  | [], hne, _ => absurd rfl hne
  | [p], _, h => splitChars_no_sep sep p (h p (by simp))
  | p :: q :: u, _, h => by
    rw [show joinChars sep (p :: q :: u) = p ++ sep :: joinChars sep (q :: u)
        from rfl,
      splitChars_append_sep sep p _ (h p (by simp)),
      joinChars_split sep (q :: u) (by simp) (fun x hx => h x (by simp [hx]))]

theorem splitPairs_joinPairs (l : List String) (hne : l ≠ [])
    (h : ∀ p ∈ l, ',' ∉ p.toList) :
    splitPairs (joinPairs l) = l := by
  unfold splitPairs joinPairs
  rw [show (String.mk (joinChars ',' (l.map String.toList))).toList =
      joinChars ',' (l.map String.toList) from rfl]
  rw [joinChars_split ',' (l.map String.toList) (by simpa using hne)
    (by
      intro p hp
      obtain ⟨x, hx, rfl⟩ := List.mem_map.mp hp
      exact h x hx)]
  rw [List.map_map]
  exact List.map_id'' (fun _ => rfl) l

theorem joinPairs_ne_empty (a : String) (t : List String)
    (h : a :: t ≠ [""]) : joinPairs (a :: t) ≠ "" := by
  cases t with
  | nil =>
    have ha : a ≠ "" := fun e => h (by rw [e])
    exact fun e => ha e
  | cons b u =>
    intro e
    have hdata : (joinPairs (a :: b :: u)).toList = ([] : List Char) := by
      rw [e]
      rfl
    rw [show (joinPairs (a :: b :: u)).toList =
        a.toList ++ ',' :: joinChars ',' ((b :: u).map String.toList)
        from rfl] at hdata
    simp at hdata

theorem log_bot_status_ok_eq (s : DBState) (now status : String)
    (av : Option Rat) (aps : Option (List String)) (msg : Option String) :
    s.log_bot_status true true now status av aps msg =
      (DBState.mk true s.trades s.scans
        (s.statuses ++
          [StatusRow.mk s.nextStatusId now status av (serializePairs aps) msg
            now])
        s.nextTradeId s.nextScanId (s.nextStatusId + 1),
       Except.ok s.nextStatusId) := by
  obtain ⟨c, tr, sc, st, n1, n2, n3⟩ := s
  cases c <;> simp [DBState.log_bot_status, ensureConn]

theorem get_latest_status_single (s : DBState) (hconn : s.conn = true)
    (row : StatusRow) (hst : s.statuses = [row]) :
    (s.get_latest_status true true).2 = some (latestStatusDict row) := by
  unfold DBState.get_latest_status
  rw [show ensureConn s true = some s from by simp [ensureConn, hconn]]
  simp [hst, sortDesc, List.insertionSort, List.orderedInsert]

/-- Claim C4 counterexample: a pair symbol containing the comma delimiter
is neither rejected nor escaped — `log_bot_status` accepts the list
`["A,B"]` and returns an identifier, and reading the latest status back
yields `["A", "B"]`, which differs from the list that was written: the
round trip is not lossless. -/
theorem c4_counterexample_comma_symbol_not_escaped :
    (initState.log_bot_status true true "2024-01-01 00:00:00" "RUNNING" none
        (some ["A,B"]) none).2 = .ok 1 ∧
    ((initState.log_bot_status true true "2024-01-01 00:00:00" "RUNNING" none
        (some ["A,B"]) none).1.get_latest_status true true).2.map
      StatusOut.active_pairs_list = some ["A", "B"] ∧
    (some ["A", "B"] ≠ some ["A,B"]) :=
  ⟨rfl, by decide, by decide⟩

/-- Claim C4 (amended): pair symbols are stored unescaped with a comma
delimiter, so the active-pair list round-trips losslessly through
`log_bot_status` and `get_latest_status` provided no symbol contains the
delimiter and the list is not the single empty symbol (whose join is the
falsy empty string); a symbol containing a comma is accepted unchanged
and corrupts the round trip. -/
theorem c4_amended_roundtrip_without_delimiter (s : DBState)
    (now status : String) (av : Option Rat) (msg : Option String)
    (pairs : List String) (hst : s.statuses = [])
    (h : ∀ p ∈ pairs, ',' ∉ p.toList) (hne : pairs ≠ [""]) :
    ((s.log_bot_status true true now status av (some pairs)
        msg).1.get_latest_status true true).2.map
      StatusOut.active_pairs_list = some pairs := by
  rw [log_bot_status_ok_eq,
    get_latest_status_single _ rfl
      (StatusRow.mk s.nextStatusId now status av (serializePairs (some pairs))
        msg now)
      (by simp [hst])]
  cases pairs with
  | nil => simp [latestStatusDict, serializePairs]
  | cons a t =>
    have hja : joinPairs (a :: t) ≠ "" := joinPairs_ne_empty a t hne
    have hser : serializePairs (some (a :: t)) = some (joinPairs (a :: t)) := by
      simp [serializePairs]
    simp only [latestStatusDict, hser, Option.map_some]
    rw [if_neg hja, splitPairs_joinPairs (a :: t) (by simp) h]
    rfl

theorem log_market_scan_ok_eq (s : DBState) (now pair sig : String)
    (price : Rat) (strat iv : Option String) (ind : Option Indicators) :
    s.log_market_scan true true now pair sig price strat iv ind =
      (DBState.mk true s.trades
        (s.scans ++
          [ScanRow.mk s.nextScanId now pair sig price strat iv
            (serializeIndicators ind) now])
        s.statuses s.nextTradeId (s.nextScanId + 1) s.nextStatusId,
       Except.ok s.nextScanId) := by
  obtain ⟨c, tr, sc, st, n1, n2, n3⟩ := s
  cases c <;> simp [DBState.log_market_scan, ensureConn]

theorem get_latest_scan_single (s : DBState) (hconn : s.conn = true)
    (row : ScanRow) (hsc : s.scans = [row]) :
    (s.get_latest_scan true true none).2 = some row := by
  unfold DBState.get_latest_scan
  rw [show ensureConn s true = some s from by simp [ensureConn, hconn]]
  simp [hsc, pyStrOpt, sortDesc, List.insertionSort, List.orderedInsert,
    latestScanDict]

theorem get_market_scans_single (s : DBState) (hconn : s.conn = true)
    (row : ScanRow) (hsc : s.scans = [row]) :
    (s.get_market_scans true true none none none none none).2 =
      [ScanOut.mk row (parseIndicators row.indicators)] := by
  unfold DBState.get_market_scans
  rw [show ensureConn s true = some s from by simp [ensureConn, hconn]]
  simp [hsc, scanMatches, strFilter, dateLowerFilter, dateUpperFilter, pyStrOpt,
    applyLimit, pyNatOpt, sortDesc, List.insertionSort, List.orderedInsert]

theorem get_bot_status_single (s : DBState) (hconn : s.conn = true)
    (row : StatusRow) (hst : s.statuses = [row]) :
    (s.get_bot_status true true none none none none).2 =
      [StatusOut.mk row (parseActivePairs row.active_pairs)] := by
  unfold DBState.get_bot_status
  rw [show ensureConn s true = some s from by simp [ensureConn, hconn]]
  simp [hst, statusMatches, strFilter, dateLowerFilter, dateUpperFilter,
    pyStrOpt, applyLimit, pyNatOpt, sortDesc, List.insertionSort,
    List.orderedInsert]

/-- Claim C9 counterexample: after recording a scan with an *empty*
indicator mapping, `get_latest_scan` returns the stored NULL as the
absent value (`none`), not as an empty mapping — so this reader does not
recover an empty mapping as the claim states. -/
theorem c9_counterexample_latest_scan_keeps_null :
    ((initState.log_market_scan true true "2024-01-01 00:00:00" "BTCUSDT" "BUY"
        50000 none none (some [])).1.get_latest_scan true true none).2.map
      ScanRow.indicators = some none ∧
    (some (none : Option Indicators) ≠ some (some ([] : Indicators))) :=
  ⟨by decide, by decide⟩

/-- Claim C9 (amended): an empty indicator mapping and an empty
active-pair list are stored as NULL, identically to passing no value at
all; `get_market_scans` recovers an empty mapping, and `get_bot_status`
and `get_latest_status` recover an empty list, while `get_latest_scan`
returns the absent (NULL) indicators value unchanged rather than an empty
mapping — in all cases an empty structured input and an omitted one are
indistinguishable after any read. -/
theorem c9_amended_empty_input_stored_null_indistinguishable (s : DBState)
    (cOk wOk : Bool) (now pair sig status : String) (price : Rat)
    (strat iv msg : Option String) (av : Option Rat)
    (hsc : s.scans = []) (hst : s.statuses = []) :
    (s.log_market_scan cOk wOk now pair sig price strat iv (some []) =
      s.log_market_scan cOk wOk now pair sig price strat iv none) ∧
    (s.log_bot_status cOk wOk now status av (some []) msg =
      s.log_bot_status cOk wOk now status av none msg) ∧
    ((s.log_market_scan true true now pair sig price strat iv
        (some [])).1.get_market_scans true true none none none none none).2.map
      ScanOut.indicators_dict = [[]] ∧
    ((s.log_market_scan true true now pair sig price strat iv
        (some [])).1.get_latest_scan true true none).2.map ScanRow.indicators =
      some none ∧
    ((s.log_bot_status true true now status av (some [])
        msg).1.get_bot_status true true none none none none).2.map
      StatusOut.active_pairs_list = [[]] ∧
    ((s.log_bot_status true true now status av (some [])
        msg).1.get_latest_status true true).2.map StatusOut.active_pairs_list =
      some [] := by
  refine ⟨rfl, rfl, ?_, ?_, ?_, ?_⟩
  · rw [log_market_scan_ok_eq,
      get_market_scans_single _ rfl
        (ScanRow.mk s.nextScanId now pair sig price strat iv
          (serializeIndicators (some [])) now)
        (by simp [hsc])]
    rfl
  · rw [log_market_scan_ok_eq,
      get_latest_scan_single _ rfl
        (ScanRow.mk s.nextScanId now pair sig price strat iv
          (serializeIndicators (some [])) now)
        (by simp [hsc])]
    rfl
  · rw [log_bot_status_ok_eq,
      get_bot_status_single _ rfl
        (StatusRow.mk s.nextStatusId now status av
          (serializePairs (some [])) msg now)
        (by simp [hst])]
    rfl
  · rw [log_bot_status_ok_eq,
      get_latest_status_single _ rfl
        (StatusRow.mk s.nextStatusId now status av
          (serializePairs (some [])) msg now)
        (by simp [hst])]
    rfl

/-! ### Witnesses -/

/-- Claim C1 witness: writing (BTCUSDT, BUY, 50000, 0.1, strategy TEST)
into a fresh store and querying by pair returns that single row with
identifier 1. -/
theorem c1_log_trade_get_trades_roundtrip_witness :
    ((initState.log_trade true true "2024-01-01 00:00:00" "BTCUSDT" "BUY" 50000
        (1 / 10 : Rat) none none none (some "TEST")).1.get_trades true true
        (some "BTCUSDT") none none none none).2 =
      [TradeOut.mk
        (TradeRow.mk 1 "2024-01-01 00:00:00" "BTCUSDT" "BUY" 50000 (1 / 10)
          none none none (some "TEST") "2024-01-01 00:00:00") 0] ∧
    (initState.log_trade true true "2024-01-01 00:00:00" "BTCUSDT" "BUY" 50000
        (1 / 10 : Rat) none none none (some "TEST")).2 = .ok 1 :=
  c1_log_trade_get_trades_roundtrip initState "2024-01-01 00:00:00" "BTCUSDT"
    "BUY" 50000 (1 / 10) none none none (some "TEST") (by decide)
    (by intro r hr; simp [initState] at hr)

/-- Claim C3 witness: on a freshly closed store (dropped connection) a
trade write reconnects and succeeds, and with the retried INSERT failing
the error propagates. -/
theorem c3_dropped_conn_reconnects_then_retries_once_witness :
    (initState.close.log_trade true true "2024-01-01 00:00:00" "BTCUSDT" "BUY"
        50000 1 none none none none).2 = .ok 1 ∧
    (initState.close.log_trade true false "2024-01-01 00:00:00" "BTCUSDT" "BUY"
        50000 1 none none none none).2 = .error .writeError :=
  ⟨(c3_dropped_conn_reconnects_then_retries_once initState.close rfl
      "2024-01-01 00:00:00" "BTCUSDT" "BUY" "HOLD" "RUNNING" 50000 1 none none
      none none none none none none none).1.2.1,
    (c3_dropped_conn_reconnects_then_retries_once initState.close rfl
      "2024-01-01 00:00:00" "BTCUSDT" "BUY" "HOLD" "RUNNING" 50000 1 none none
      none none none none none none none).1.2.2.1⟩

/-- Claim C4 (amended) witness: a comma-free active-pair list written into
a fresh store reads back unchanged from the latest status. -/
theorem c4_amended_roundtrip_without_delimiter_witness :
    ((initState.log_bot_status true true "2024-01-01 00:00:00" "RUNNING" none
        (some ["BTCUSDT", "ETHUSDT"]) none).1.get_latest_status true
        true).2.map StatusOut.active_pairs_list =
      some ["BTCUSDT", "ETHUSDT"] :=
  c4_amended_roundtrip_without_delimiter initState "2024-01-01 00:00:00"
    "RUNNING" none none ["BTCUSDT", "ETHUSDT"] rfl (by decide) (by decide)

/-- Claim C9 (amended) witness: on a fresh store, an empty active-pair
list reads back from the latest status as the empty list, and an empty
indicator mapping reads back from the latest scan as the absent value. -/
theorem c9_amended_empty_input_stored_null_indistinguishable_witness :
    ((initState.log_bot_status true true "2024-01-01 00:00:00" "RUNNING" none
        (some []) none).1.get_latest_status true true).2.map
      StatusOut.active_pairs_list = some [] ∧
    ((initState.log_market_scan true true "2024-01-01 00:00:00" "BTCUSDT" "BUY"
        50000 none none (some [])).1.get_latest_scan true true none).2.map
      ScanRow.indicators = some none :=
  ⟨(c9_amended_empty_input_stored_null_indistinguishable initState true true
      "2024-01-01 00:00:00" "BTCUSDT" "BUY" "RUNNING" 50000 none none none none
      rfl rfl).2.2.2.2.2,
    (c9_amended_empty_input_stored_null_indistinguishable initState true true
      "2024-01-01 00:00:00" "BTCUSDT" "BUY" "RUNNING" 50000 none none none none
      rfl rfl).2.2.2.1⟩

end TronBot
